import Mathlib

/-
  Verification development for the TradeAgent risk-managed signal
  execution pipeline.

  Shallow embedding notes:
  * Python Decimal values are modelled as exact rationals.  All concrete
    inputs used below are exact in Decimal 28-digit arithmetic as well.
  * Fallible Python code (unguarded division that raises, formatting of a
    None value) is modelled with Option: `none` stands for a raised
    exception.
  * Python truthiness of optional Decimal fields matters in several
    places: a value of 0 is falsy, so `x or d` yields `d` both when `x`
    is None and when `x` is zero.  `truthyOrD` models this.
  * The pydantic Signal model (src/models/trade.py is absent from the
    tree; its construction sites in tests/test_risk_manager.py build
    signals with negative entry prices, inverted stops and missing legs
    without error) is reconstructed as a plain record with no
    invariants.
-/

/-- A proposed trade.  Fields reconstructed from the construction sites in
tests/test_risk_manager.py and the usages in src/core and src/risk; the
pydantic model enforces no cross-field price invariants (the tests build
signals with negative entry prices and inverted stops). -/
structure Signal where
  ticker : String
  action : String
  entry_price : ℚ
  stop_loss : Option ℚ := none
  take_profit : Option ℚ := none
  confidence : ℚ
  strategy : String
  target_value : Option ℚ := none
  current_value : Option ℚ := none
deriving DecidableEq, Repr

/-- An open holding, from src/models/portfolio.py. -/
structure Position where
  symbol : String
  quantity : ℚ
  avg_entry_price : ℚ
  current_price : ℚ
  market_value : ℚ
  unrealized_pnl : ℚ
  unrealized_pnl_pct : ℚ
deriving DecidableEq, Repr

/-- Snapshot of account state, from src/models/portfolio.py. -/
structure Portfolio where
  cash : ℚ
  portfolio_value : ℚ
  buying_power : ℚ
  equity : ℚ
deriving DecidableEq, Repr

/-- The pydantic field constraints of Portfolio (every field is declared
with ge=0 in src/models/portfolio.py; portfolio_value in particular is
only constrained to be nonnegative, zero is admitted). -/
def Portfolio.Valid (p : Portfolio) : Prop :=
  0 ≤ p.cash ∧ 0 ≤ p.portfolio_value ∧ 0 ≤ p.buying_power ∧ 0 ≤ p.equity

instance (p : Portfolio) : Decidable p.Valid := by
  unfold Portfolio.Valid; infer_instance

/-- Python `x or d` on an optional Decimal: None and 0 are both falsy. -/
def truthyOrD (o : Option ℚ) (d : ℚ) : ℚ :=
  match o with
  | none => d
  | some x => if x = 0 then d else x

/-- Python truthiness of an optional Decimal: present and nonzero. -/
def optTruthy (o : Option ℚ) : Bool :=
  match o with
  | none => false
  | some x => decide (x ≠ 0)

namespace RiskManager

/-- MAX_POSITIONS from src/core/risk_manager.py. -/
def MAX_POSITIONS : ℕ := 5

/-- DAILY_LOSS_LIMIT_PCT from src/core/risk_manager.py. -/
def DAILY_LOSS_LIMIT_PCT : ℚ := 3/100

/-- check_daily_loss_limit from src/core/risk_manager.py.  The division
`daily_pnl / portfolio_value` is unguarded; Decimal division by zero
raises (DivisionByZero, or InvalidOperation for 0/0), modelled as
`none`. -/
def check_daily_loss_limit (daily_pnl portfolio_value : ℚ) : Option Bool :=
  if portfolio_value = 0 then none
  else some (decide (daily_pnl / portfolio_value ≤ -DAILY_LOSS_LIMIT_PCT))

end RiskManager

/-- C6: for positive portfolio value, check_daily_loss_limit returns true
exactly when daily_pnl / portfolio_value ≤ -3 percent; it returns true at
the exact threshold input (-300, 10000) and false at (-299.99, 10000). -/
theorem c6_daily_loss_threshold :
    (∀ daily_pnl portfolio_value : ℚ, 0 < portfolio_value →
      (RiskManager.check_daily_loss_limit daily_pnl portfolio_value = some true ↔
        daily_pnl / portfolio_value ≤ -(3/100))) ∧
    RiskManager.check_daily_loss_limit (-300) 10000 = some true ∧
    RiskManager.check_daily_loss_limit (-29999/100) 10000 = some false := by
  refine ⟨fun daily_pnl portfolio_value hpv => ?_,
    by norm_num [RiskManager.check_daily_loss_limit, RiskManager.DAILY_LOSS_LIMIT_PCT],
    by norm_num [RiskManager.check_daily_loss_limit, RiskManager.DAILY_LOSS_LIMIT_PCT]⟩
  unfold RiskManager.check_daily_loss_limit RiskManager.DAILY_LOSS_LIMIT_PCT
  rw [if_neg (ne_of_gt hpv)]
  simp [decide_eq_true_iff]

theorem c6_daily_loss_threshold_witness :
    0 < (10000 : ℚ) ∧
    (RiskManager.check_daily_loss_limit (-300) 10000 = some true ↔
      (-300 : ℚ) / 10000 ≤ -(3/100)) :=
  ⟨by norm_num, c6_daily_loss_threshold.1 (-300) 10000 (by norm_num)⟩

/-- A portfolio with zero total value; every pydantic constraint of the
Portfolio model (all fields ge=0) is satisfied. -/
def zeroValuePortfolio : Portfolio :=
  { cash := 0, portfolio_value := 0, buying_power := 0, equity := 0 }

/-- C9: check_daily_loss_limit is not total on the domain the Portfolio
model permits: at portfolio_value = 0 (admitted by the model, whose only
constraint on portfolio_value is nonnegativity, as zeroValuePortfolio
witnesses) the unguarded division raises instead of returning a bool;
for every nonzero portfolio_value the call returns a bool. -/
theorem c9_loss_limit_partial_on_zero_value :
    (∀ daily_pnl : ℚ, RiskManager.check_daily_loss_limit daily_pnl 0 = none) ∧
    (∀ daily_pnl portfolio_value : ℚ, portfolio_value ≠ 0 →
      (RiskManager.check_daily_loss_limit daily_pnl portfolio_value).isSome) ∧
    zeroValuePortfolio.Valid ∧ zeroValuePortfolio.portfolio_value = 0 := by
  refine ⟨fun daily_pnl => ?_, fun daily_pnl pv hpv => ?_,
    by simp [Portfolio.Valid, zeroValuePortfolio], rfl⟩
  · simp [RiskManager.check_daily_loss_limit]
  · simp [RiskManager.check_daily_loss_limit, hpv]

theorem c9_loss_limit_partial_on_zero_value_witness :
    (1 : ℚ) ≠ 0 ∧ (RiskManager.check_daily_loss_limit (-5) 1).isSome :=
  ⟨by norm_num, c9_loss_limit_partial_on_zero_value.2.1 (-5) 1 (by norm_num)⟩

/-- Truncation toward zero, as Python int() applied to a Decimal. -/
def qtrunc (x : ℚ) : ℤ :=
  if 0 ≤ x then ⌊x⌋ else ⌈x⌉

/-- Dynamic position sizing state from src/risk/position_sizer.py.  The
constructor applies Python `or` defaults, see mkPositionSizer. -/
structure PositionSizer where
  win_rate : ℚ
  avg_win : ℚ
  avg_loss : ℚ
deriving DecidableEq, Repr

/-- PositionSizer.__init__: each argument passes through Python `or`, so
None and 0 both fall back to the class defaults 0.55, 0.08, 0.03. -/
def mkPositionSizer (win_rate avg_win avg_loss : Option ℚ) : PositionSizer :=
  { win_rate := truthyOrD win_rate (55/100)
    avg_win := truthyOrD avg_win (8/100)
    avg_loss := truthyOrD avg_loss (3/100) }

/-- The singleton returned by get_position_sizer when no historical data
was loaded. -/
def defaultPositionSizer : PositionSizer := mkPositionSizer none none none

namespace PositionSizer

/-- 15 percent cap per position. -/
def MAX_POSITION_SIZE_PCT : ℚ := 15/100

/-- 3 percent minimum per position. -/
def MIN_POSITION_SIZE_PCT : ℚ := 3/100

/-- Half-Kelly safety multiplier. -/
def KELLY_FRACTION : ℚ := 1/2

/-- win_loss_ratio computed in PositionSizer.__init__. -/
def win_loss_ratio (s : PositionSizer) : ℚ :=
  if 0 < s.avg_loss then s.avg_win / s.avg_loss else 2

/-- PositionSizer.calculate_kelly_fraction from src/risk/position_sizer.py.
The historical-ratio fallback fires only when stop_loss_pct is not
positive; a zero take_profit_pct with a positive stop_loss_pct gives
b = 0 and hence kelly = 0. -/
def calculate_kelly_fraction (s : PositionSizer)
    (confidence stop_loss_pct take_profit_pct : ℚ) : ℚ :=
  let p := confidence * s.win_rate
  let q := 1 - p
  let b := if 0 < stop_loss_pct then take_profit_pct / stop_loss_pct else s.win_loss_ratio
  let numerator := p * b - q
  let kelly := if 0 < b then numerator / b else 0
  let kelly_adjusted := kelly * KELLY_FRACTION
  max kelly_adjusted 0

/-- Effective stop used by calculate_position_size: `signal.stop_loss or
entry_price * 0.97` (None and Decimal 0 both fall back). -/
def effective_stop_loss (signal : Signal) : ℚ :=
  truthyOrD signal.stop_loss (signal.entry_price * (97/100))

/-- Effective target used by calculate_position_size: `signal.take_profit
or entry_price * 1.08`. -/
def effective_take_profit (signal : Signal) : ℚ :=
  truthyOrD signal.take_profit (signal.entry_price * (108/100))

/-- stop_loss_pct as computed in calculate_position_size.  Total on ℚ;
the caller guards the entry_price = 0 raise. -/
def stop_loss_pct (signal : Signal) : ℚ :=
  |signal.entry_price - effective_stop_loss signal| / signal.entry_price

/-- take_profit_pct as computed in calculate_position_size. -/
def take_profit_pct (signal : Signal) : ℚ :=
  |effective_take_profit signal - signal.entry_price| / signal.entry_price

/-- The portfolio fraction after the band clamp (min 3 percent, max 15
percent) in calculate_position_size. -/
def position_size_pct (s : PositionSizer) (signal : Signal) : ℚ :=
  min (max (s.calculate_kelly_fraction signal.confidence
      (stop_loss_pct signal) (take_profit_pct signal)) MIN_POSITION_SIZE_PCT)
    MAX_POSITION_SIZE_PCT

/-- PositionSizer.calculate_position_size from src/risk/position_sizer.py,
returning the dollar value (the reasoning string is dropped; the raises
hidden in it are kept).  `none` models a raised exception:
* entry_price = 0 makes the stop_loss_pct division raise;
* stop_loss_pct = 0 makes the R:R term of the reasoning f-string raise;
* when the cash cap engages with portfolio_value = 0, recomputing
  position_size_pct divides by zero. -/
def calculate_position_size (s : PositionSizer) (signal : Signal)
    (portfolio : Portfolio) : Option ℚ :=
  if signal.entry_price = 0 then none
  else if stop_loss_pct signal = 0 then none
  else
    let position_value := portfolio.portfolio_value * position_size_pct s signal
    let max_affordable := portfolio.cash * (95/100)
    if max_affordable < position_value then
      (if portfolio.portfolio_value = 0 then none else some max_affordable)
    else some position_value

/-- PositionSizer.calculate_quantity from src/risk/position_sizer.py:
dollar value divided by entry price, truncated to whole shares, floored
at 1 share. -/
def calculate_quantity (s : PositionSizer) (signal : Signal)
    (portfolio : Portfolio) : Option ℚ :=
  (s.calculate_position_size signal portfolio).map (fun position_value =>
    let quantity : ℚ := (qtrunc (position_value / signal.entry_price) : ℚ)
    if quantity < 1 then 1 else quantity)

end PositionSizer

/-- Follows the wording of the spec (section 4.2, dynamic mode), for
comparison with the code path position_size_pct: odds b equal
take_profit_pct / stop_loss_pct with fallback to the historical average
win/loss ratio if either leg is absent or zero; raw fraction
(p b - q)/b clamped to be nonnegative, halved, then clamped into the
3 to 15 percent band. -/
def specDynamicFraction (s : PositionSizer) (signal : Signal) : ℚ :=
  let p := signal.confidence * s.win_rate
  let q := 1 - p
  let slp : Option ℚ :=
    signal.stop_loss.map (fun sl => |signal.entry_price - sl| / signal.entry_price)
  let tpp : Option ℚ :=
    signal.take_profit.map (fun tp => |tp - signal.entry_price| / signal.entry_price)
  let b := match slp, tpp with
    | some a, some c => if a = 0 ∨ c = 0 then s.win_loss_ratio else c / a
    | _, _ => s.win_loss_ratio
  let f := max ((p * b - q) / b) 0
  min (max (f * (1/2)) (3/100)) (15/100)

/-- A momentum signal whose take-profit leg is present but sits exactly
at the entry price, so take_profit_pct = 0 while stop_loss_pct = 3
percent. -/
def tpAtEntrySignal : Signal :=
  { ticker := "XMPL", action := "BUY", entry_price := 100,
    stop_loss := some 97, take_profit := some 100,
    confidence := 3/4, strategy := "momentum" }

/-- C4 counterexample: on a signal with a present-but-zero take-profit
leg the code does not fall back to the historical win/loss ratio (that
happens only when the stop leg is zero); b = 0 forces kelly = 0 and the
band minimum 3 percent, while the Kelly computation worded in the spec
falls back to b = 8/3 and yields 123/1280. -/
theorem c4_spec_fallback_mismatch :
    PositionSizer.position_size_pct defaultPositionSizer tpAtEntrySignal = 3/100 ∧
    specDynamicFraction defaultPositionSizer tpAtEntrySignal = 123/1280 ∧
    (3/100 : ℚ) ≠ 123/1280 := by
  refine ⟨?_, ?_, by norm_num⟩
  · norm_num [PositionSizer.position_size_pct, PositionSizer.calculate_kelly_fraction,
      PositionSizer.stop_loss_pct, PositionSizer.take_profit_pct,
      PositionSizer.effective_stop_loss, PositionSizer.effective_take_profit,
      PositionSizer.MIN_POSITION_SIZE_PCT, PositionSizer.MAX_POSITION_SIZE_PCT,
      PositionSizer.KELLY_FRACTION, PositionSizer.win_loss_ratio,
      tpAtEntrySignal, defaultPositionSizer, mkPositionSizer, truthyOrD]
  · norm_num [specDynamicFraction, tpAtEntrySignal, defaultPositionSizer,
      mkPositionSizer, truthyOrD, PositionSizer.win_loss_ratio]

/-- C4 amended: the fraction follows the Kelly formula with odds
b = take_profit_pct / stop_loss_pct, but the historical fallback fires
only when the stop leg percentage is not positive; a zero take-profit
percentage against a positive stop percentage gives fraction 0 (hence
the band minimum after clamping); the concrete scenario
confidence = 0.75, win_rate = 0.55, stop_loss_pct = 0.03,
take_profit_pct = 0.08 matches the hand-computed half-Kelly value
123/1280 = 0.09609375; every dollar value the sizer returns is exactly
portfolio_value times the band-clamped fraction, capped again at 95
percent of available cash (the minimum of the two); hence it is at most
15 percent of a nonnegative portfolio value. -/
theorem c4_kelly_fraction_amended :
    (∀ (s : PositionSizer) (conf slp tpp : ℚ), 0 < slp → 0 < tpp →
      s.calculate_kelly_fraction conf slp tpp =
        max ((conf * s.win_rate * (tpp / slp) - (1 - conf * s.win_rate)) /
          (tpp / slp) * (1/2)) 0) ∧
    (∀ (s : PositionSizer) (conf slp : ℚ), 0 < slp →
      s.calculate_kelly_fraction conf slp 0 = 0) ∧
    defaultPositionSizer.calculate_kelly_fraction (3/4) (3/100) (8/100) = 123/1280 ∧
    (∀ (s : PositionSizer) (signal : Signal) (portfolio : Portfolio) (v : ℚ),
      s.calculate_position_size signal portfolio = some v →
      v = min (portfolio.portfolio_value * PositionSizer.position_size_pct s signal)
        (portfolio.cash * (95/100))) ∧
    (∀ (s : PositionSizer) (signal : Signal) (portfolio : Portfolio) (v : ℚ),
      0 ≤ portfolio.portfolio_value →
      s.calculate_position_size signal portfolio = some v →
      v ≤ portfolio.portfolio_value * (15/100)) := by
  refine ⟨?_, ?_, ?_, ?_, ?_⟩
  · intro s conf slp tpp hslp htpp
    simp only [PositionSizer.calculate_kelly_fraction, PositionSizer.KELLY_FRACTION]
    rw [if_pos hslp, if_pos (div_pos htpp hslp)]
  · intro s conf slp hslp
    simp only [PositionSizer.calculate_kelly_fraction, PositionSizer.KELLY_FRACTION]
    rw [if_pos hslp]
    simp [zero_div]
  · norm_num [PositionSizer.calculate_kelly_fraction, defaultPositionSizer,
      mkPositionSizer, truthyOrD, PositionSizer.win_loss_ratio,
      PositionSizer.KELLY_FRACTION]
  · intro s signal portfolio v h
    simp only [PositionSizer.calculate_position_size] at h
    split_ifs at h with h1 h2 h3 h4
    · rw [Option.some.injEq] at h
      subst h
      exact (min_eq_right (le_of_lt h3)).symm
    · rw [Option.some.injEq] at h
      subst h
      exact (min_eq_left (not_lt.mp h3)).symm
  · intro s signal portfolio v hpv h
    have hpct : PositionSizer.position_size_pct s signal ≤ 15/100 := by
      unfold PositionSizer.position_size_pct PositionSizer.MAX_POSITION_SIZE_PCT
      exact min_le_right _ _
    have hbound : portfolio.portfolio_value * PositionSizer.position_size_pct s signal ≤
        portfolio.portfolio_value * (15/100) := mul_le_mul_of_nonneg_left hpct hpv
    simp only [PositionSizer.calculate_position_size] at h
    split_ifs at h with h1 h2 h3 h4
    · rw [Option.some.injEq] at h
      subst h
      linarith
    · rw [Option.some.injEq] at h
      subst h
      linarith

theorem c4_kelly_fraction_amended_witness :
    (0 : ℚ) < 3/100 ∧ (0 : ℚ) < 8/100 ∧
    defaultPositionSizer.calculate_kelly_fraction (3/4) (3/100) (8/100) =
      max ((3/4 * defaultPositionSizer.win_rate * ((8/100) / (3/100)) -
        (1 - 3/4 * defaultPositionSizer.win_rate)) / ((8/100) / (3/100)) * (1/2)) 0 :=
  ⟨by norm_num, by norm_num,
    c4_kelly_fraction_amended.1 defaultPositionSizer (3/4) (3/100) (8/100)
      (by norm_num) (by norm_num)⟩

/-- The high-priced-stock input from the repository test
tests/test_risk_manager.py, test_position_size_high_price_stock. -/
def brkSignal : Signal :=
  { ticker := "BRK.A", action := "BUY", entry_price := 500000,
    confidence := 3/4, strategy := "momentum" }

/-- The sample_portfolio fixture from tests/test_risk_manager.py. -/
def samplePortfolio : Portfolio :=
  { cash := 5000, portfolio_value := 10000, buying_power := 5000, equity := 5000 }

namespace RiskManager

/-- The defensive core symbols excluded from the momentum position count
in filter_signals_by_risk. -/
def defensive_symbols : List String := ["VTI", "VGK", "GLD"]

/-- The momentum positions counted against MAX_POSITIONS: every position
whose symbol is not defensive. -/
def momentum_positions (current_positions : List Position) : List Position :=
  current_positions.filter (fun p => !(defensive_symbols.contains p.symbol))

/-- Stable insertion of a signal into a descending-confidence list: walk
past strictly more confident entries, stop at the first entry with
confidence at most the inserted one (so an earlier input element stays
ahead of equally confident later ones). -/
def insertDesc (s : Signal) : List Signal → List Signal
  | [] => [s]
  | y :: ys => if s.confidence < y.confidence then y :: insertDesc s ys else s :: y :: ys

/-- Model of `signals.sort(key=confidence, reverse=True)`.  Python sort is
stable, and every stable sort under the same key order produces the same
list, so stable insertion sort is a faithful model. -/
def sortByConfidenceDesc : List Signal → List Signal
  | [] => []
  | x :: xs => insertDesc x (sortByConfidenceDesc xs)

/-- The approval loop of filter_signals_by_risk, with the correlation
monitor verdict abstracted as `check` (the portfolio value and current
positions the code passes along are folded into it).  `slots` is the
remaining capacity; the loop breaks once it reaches zero. -/
def selectApproved (check : Signal → Bool × Option String) :
    ℕ → List Signal → List Signal
  | _, [] => []
  | slots, s :: rest =>
      if slots = 0 then []
      else if (check s).1 then s :: selectApproved check (slots - 1) rest
      else selectApproved check slots rest

/-- filter_signals_by_risk from src/core/risk_manager.py.  The function
sorts its argument list in place before filtering, so the embedding
returns a pair: the state of the caller's list after the call, and the
approved list.  When the momentum position cap is already reached the
function returns a fresh empty list and never touches the argument. -/
def filter_signals_by_risk (check : Signal → Bool × Option String)
    (signals : List Signal) (current_positions : List Position) :
    List Signal × List Signal :=
  if MAX_POSITIONS ≤ (momentum_positions current_positions).length then
    (signals, [])
  else
    let sorted := sortByConfidenceDesc signals
    (sorted,
      selectApproved check (MAX_POSITIONS - (momentum_positions current_positions).length)
        sorted)

theorem insertDesc_perm (s : Signal) (l : List Signal) :
    (insertDesc s l).Perm (s :: l) := by
  induction l with
  | nil => exact List.Perm.refl _
  | cons y ys ih =>
    simp only [insertDesc]
    split
    · exact (ih.cons y).trans (List.Perm.swap s y ys)
    · exact List.Perm.refl _

theorem sortByConfidenceDesc_perm (l : List Signal) :
    (sortByConfidenceDesc l).Perm l := by
  induction l with
  | nil => exact List.Perm.refl _
  | cons x xs ih => exact (insertDesc_perm x (sortByConfidenceDesc xs)).trans (ih.cons x)

theorem insertDesc_pairwise {s : Signal} {l : List Signal}
    (h : l.Pairwise (fun a b => b.confidence ≤ a.confidence)) :
    (insertDesc s l).Pairwise (fun a b => b.confidence ≤ a.confidence) := by
  induction l with
  | nil => simp [insertDesc]
  | cons y ys ih =>
    rcases List.pairwise_cons.1 h with ⟨hy, hys⟩
    simp only [insertDesc]
    split
    · rename_i hc
      refine List.pairwise_cons.2 ⟨?_, ih hys⟩
      intro b hb
      rcases List.mem_cons.1 ((insertDesc_perm s ys).mem_iff.1 hb) with hb | hb
      · exact hb ▸ le_of_lt hc
      · exact hy b hb
    · rename_i hc
      refine List.pairwise_cons.2 ⟨?_, h⟩
      intro b hb
      rcases List.mem_cons.1 hb with hb | hb
      · exact hb ▸ le_of_not_lt hc
      · exact le_trans (hy b hb) (le_of_not_lt hc)

theorem sortByConfidenceDesc_pairwise (l : List Signal) :
    (sortByConfidenceDesc l).Pairwise (fun a b => b.confidence ≤ a.confidence) := by
  induction l with
  | nil => simp [sortByConfidenceDesc]
  | cons x xs ih => exact insertDesc_pairwise ih

theorem filter_insertDesc (s : Signal) (l : List Signal) (c : ℚ) :
    (insertDesc s l).filter (fun t => t.confidence = c) =
      if s.confidence = c then s :: l.filter (fun t => t.confidence = c)
      else l.filter (fun t => t.confidence = c) := by
  induction l with
  | nil => by_cases hs : s.confidence = c <;> simp [insertDesc, List.filter, hs]
  | cons y ys ih =>
    simp only [insertDesc]
    by_cases hc : s.confidence < y.confidence
    · rw [if_pos hc]
      by_cases hs : s.confidence = c
      · have hy : ¬(y.confidence = c) := fun hyc => absurd (hs ▸ hyc ▸ hc) (lt_irrefl _)
        simp [List.filter_cons, hs, hy, ih]
      · simp [List.filter_cons, hs, ih]
    · rw [if_neg hc]
      by_cases hs : s.confidence = c <;> simp [List.filter_cons, hs]

theorem filter_sortByConfidenceDesc (l : List Signal) (c : ℚ) :
    (sortByConfidenceDesc l).filter (fun t => t.confidence = c) =
      l.filter (fun t => t.confidence = c) := by
  induction l with
  | nil => rfl
  | cons x xs ih =>
    simp only [sortByConfidenceDesc, filter_insertDesc, List.filter_cons, ih]
    by_cases hx : x.confidence = c <;> simp [hx]

theorem selectApproved_sublist (check : Signal → Bool × Option String) :
    ∀ (n : ℕ) (l : List Signal), (selectApproved check n l).Sublist l := by
  intro n l
  induction l generalizing n with
  | nil => simp [selectApproved]
  | cons s rest ih =>
    simp only [selectApproved]
    split
    · exact List.nil_sublist _
    · split
      · exact (ih _).cons₂ s
      · exact (ih _).cons s

theorem selectApproved_length (check : Signal → Bool × Option String) :
    ∀ (n : ℕ) (l : List Signal), (selectApproved check n l).length ≤ n := by
  intro n l
  induction l generalizing n with
  | nil => simp [selectApproved]
  | cons s rest ih =>
    simp only [selectApproved]
    split
    · rename_i h0
      simp [h0]
    · rename_i h0
      split
      · have := ih (n - 1)
        simp only [List.length_cons]
        omega
      · exact ih n

end RiskManager

/-- C3: filter_signals_by_risk returns the empty list as soon as the
count of non-defensive positions reaches MAX_POSITIONS = 5, and in every
case approves at most MAX_POSITIONS minus that count signals. -/
theorem c3_filter_respects_position_cap :
    ∀ (check : Signal → Bool × Option String) (signals : List Signal)
      (current_positions : List Position),
      (RiskManager.MAX_POSITIONS ≤
          (RiskManager.momentum_positions current_positions).length →
        (RiskManager.filter_signals_by_risk check signals current_positions).2 = []) ∧
      (RiskManager.filter_signals_by_risk check signals current_positions).2.length ≤
        RiskManager.MAX_POSITIONS -
          (RiskManager.momentum_positions current_positions).length := by
  intro check signals current_positions
  constructor
  · intro h
    simp [RiskManager.filter_signals_by_risk, h]
  · by_cases h : RiskManager.MAX_POSITIONS ≤
        (RiskManager.momentum_positions current_positions).length
    · simp [RiskManager.filter_signals_by_risk, h]
    · simp only [RiskManager.filter_signals_by_risk, if_neg h]
      exact RiskManager.selectApproved_length check _ _

/-- Five open momentum positions: the position cap is exactly reached. -/
def maxedPositions : List Position :=
  List.replicate 5
    { symbol := "STCK", quantity := 10, avg_entry_price := 100,
      current_price := 105, market_value := 1050,
      unrealized_pnl := 50, unrealized_pnl_pct := 5/100 }

/-- A correlation monitor verdict that approves everything. -/
def approveAll : Signal → Bool × Option String := fun _ => (true, none)

theorem c3_filter_respects_position_cap_witness :
    RiskManager.MAX_POSITIONS ≤ (RiskManager.momentum_positions maxedPositions).length ∧
    (RiskManager.filter_signals_by_risk approveAll [] maxedPositions).2 = [] :=
  ⟨by decide,
    (c3_filter_respects_position_cap approveAll [] maxedPositions).1 (by decide)⟩

/-- C7: the approved list is sorted by non-increasing confidence, and for
every confidence value the approved signals of that confidence form a
sublist of the input signals of that confidence in their original order
(stability). -/
theorem c7_approved_sorted_stable :
    ∀ (check : Signal → Bool × Option String) (signals : List Signal)
      (current_positions : List Position),
      (RiskManager.filter_signals_by_risk check signals current_positions).2.Pairwise
        (fun a b => b.confidence ≤ a.confidence) ∧
      ∀ c : ℚ,
        ((RiskManager.filter_signals_by_risk check signals current_positions).2.filter
            (fun s => s.confidence = c)).Sublist
          (signals.filter (fun s => s.confidence = c)) := by
  intro check signals current_positions
  by_cases h : RiskManager.MAX_POSITIONS ≤
      (RiskManager.momentum_positions current_positions).length
  · simp [RiskManager.filter_signals_by_risk, h]
  · simp only [RiskManager.filter_signals_by_risk, if_neg h]
    constructor
    · exact (RiskManager.sortByConfidenceDesc_pairwise signals).sublist
        (RiskManager.selectApproved_sublist check _ _)
    · intro c
      have hsub := (RiskManager.selectApproved_sublist check
        (RiskManager.MAX_POSITIONS -
          (RiskManager.momentum_positions current_positions).length)
        (RiskManager.sortByConfidenceDesc signals)).filter
        (fun s => decide (s.confidence = c))
      rwa [RiskManager.filter_sortByConfidenceDesc signals c] at hsub

/-- C10: filter_signals_by_risk mutates the caller's list.  Below the
position cap the post-call state of the argument list is exactly its
stable descending sort (a permutation of the input, sorted by
non-increasing confidence); at or above the cap the argument is returned
untouched and the approved list is a fresh empty list. -/
theorem c10_filter_sorts_input_in_place :
    ∀ (check : Signal → Bool × Option String) (signals : List Signal)
      (current_positions : List Position),
      ((RiskManager.momentum_positions current_positions).length <
          RiskManager.MAX_POSITIONS →
        (RiskManager.filter_signals_by_risk check signals current_positions).1 =
          RiskManager.sortByConfidenceDesc signals ∧
        (RiskManager.filter_signals_by_risk check signals current_positions).1.Perm
          signals ∧
        (RiskManager.filter_signals_by_risk check signals current_positions).1.Pairwise
          (fun a b => b.confidence ≤ a.confidence)) ∧
      (RiskManager.MAX_POSITIONS ≤
          (RiskManager.momentum_positions current_positions).length →
        (RiskManager.filter_signals_by_risk check signals current_positions).1 =
          signals ∧
        (RiskManager.filter_signals_by_risk check signals current_positions).2 = []) := by
  intro check signals current_positions
  constructor
  · intro h
    refine ⟨?_, ?_, ?_⟩
    · simp [RiskManager.filter_signals_by_risk, if_neg (not_le_of_lt h)]
    · simp only [RiskManager.filter_signals_by_risk, if_neg (not_le_of_lt h)]
      exact RiskManager.sortByConfidenceDesc_perm signals
    · simp only [RiskManager.filter_signals_by_risk, if_neg (not_le_of_lt h)]
      exact RiskManager.sortByConfidenceDesc_pairwise signals
  · intro h
    simp [RiskManager.filter_signals_by_risk, h]

/-- Two momentum signals in ascending confidence order, so sorting
visibly permutes the list. -/
def lowHighSignals : List Signal :=
  [{ ticker := "AAPL", action := "BUY", entry_price := 150,
     confidence := 3/5, strategy := "momentum" },
   { ticker := "MSFT", action := "BUY", entry_price := 350,
     confidence := 9/10, strategy := "momentum" }]

theorem c10_filter_sorts_input_in_place_witness :
    (RiskManager.momentum_positions []).length < RiskManager.MAX_POSITIONS ∧
    (RiskManager.filter_signals_by_risk approveAll lowHighSignals []).1 =
      RiskManager.sortByConfidenceDesc lowHighSignals ∧
    (RiskManager.filter_signals_by_risk approveAll lowHighSignals []).1.Perm
      lowHighSignals ∧
    (RiskManager.filter_signals_by_risk approveAll lowHighSignals []).1.Pairwise
      (fun a b => b.confidence ≤ a.confidence) :=
  ⟨by decide,
    (c10_filter_sorts_input_in_place approveAll lowHighSignals []).1 (by decide)⟩

/-- A date-indexed series of daily closes, the model of the pandas
Series returned by the price-history provider. -/
abbrev PriceSeries := List (ℤ × ℚ)

namespace CorrelationMonitor

/-- Maximum admissible pairwise correlation. -/
def MAX_CORRELATION : ℚ := 7/10

/-- Maximum admissible sector share of portfolio value. -/
def MAX_SECTOR_ALLOCATION : ℚ := 2/5

/-- Minimum held positions before the correlation check runs. -/
def MIN_POSITIONS_FOR_CORRELATION : ℕ := 2

/-- The static ticker to sector table from
src/risk/correlation_monitor.py. -/
def sectorPairs : List (String × String) :=
  [("AAPL", "Technology"), ("MSFT", "Technology"), ("GOOGL", "Technology"),
   ("META", "Technology"), ("NVDA", "Technology"), ("AMD", "Technology"),
   ("AVGO", "Technology"), ("NFLX", "Technology"),
   ("JPM", "Finance"), ("BAC", "Finance"), ("WFC", "Finance"),
   ("GS", "Finance"), ("MS", "Finance"),
   ("XOM", "Energy"), ("CVX", "Energy"), ("COP", "Energy"),
   ("LLY", "Healthcare"), ("JNJ", "Healthcare"), ("PFE", "Healthcare"),
   ("UNH", "Healthcare"),
   ("TSLA", "Consumer"), ("AMZN", "Consumer"), ("KO", "Consumer"),
   ("PEP", "Consumer"), ("MCD", "Consumer"),
   ("VTI", "Broad Market"), ("VGK", "International"), ("GLD", "Commodities"),
   ("SPY", "Broad Market"), ("QQQ", "Technology")]

/-- SECTOR_MAP.get(ticker, "Unknown"). -/
def SECTOR_MAP (ticker : String) : String :=
  ((sectorPairs.find? (fun p => p.1 = ticker)).map (fun p => p.2)).getD "Unknown"

/-- The number of overlapping dates of two series, the length of the
inner join pandas concat performs in _calculate_correlation. -/
def alignedCount (series1 series2 : PriceSeries) : ℕ :=
  (series1.filter (fun p => series2.any (fun q => q.1 = p.1))).length

/-- _calculate_correlation: with fewer than 30 overlapping observations
the result is None; otherwise the Pearson coefficient, abstracted as the
oracle `pearson` (float arithmetic; an exception inside it is also
modelled by the oracle returning none). -/
def calculate_correlation (pearson : PriceSeries → PriceSeries → Option ℚ)
    (series1 series2 : PriceSeries) : Option ℚ :=
  if alignedCount series1 series2 < 30 then none else pearson series1 series2

/-- The per-position loop of _check_correlation.  Unavailable or short
price history for a held position, and an incomputable correlation, are
skipped; a correlation above the cap rejects. -/
def checkCorrelationLoop (hist : String → Option PriceSeries)
    (pearson : PriceSeries → PriceSeries → Option ℚ) (new_prices : PriceSeries) :
    List Position → Bool × Option String
  | [] => (true, none)
  | pos :: rest =>
      match hist pos.symbol with
      | none => checkCorrelationLoop hist pearson new_prices rest
      | some existing_prices =>
          if existing_prices.length < 30 then
            checkCorrelationLoop hist pearson new_prices rest
          else
            match calculate_correlation pearson new_prices existing_prices with
            | none => checkCorrelationLoop hist pearson new_prices rest
            | some correlation =>
                if MAX_CORRELATION < |correlation| then
                  (false, some ("High correlation with " ++ pos.symbol))
                else checkCorrelationLoop hist pearson new_prices rest

/-- _check_correlation from src/risk/correlation_monitor.py.  The price
history provider is the oracle `hist` (none models both a fetch error
and an empty frame); missing or short history for the candidate
approves with reason None, exactly as a clean pass does.  The
surrounding try/except that approves on any error is subsumed by the
oracles returning none. -/
def check_correlation (hist : String → Option PriceSeries)
    (pearson : PriceSeries → PriceSeries → Option ℚ)
    (new_ticker : String) (current_positions : List Position) :
    Bool × Option String :=
  match hist new_ticker with
  | none => (true, none)
  | some new_prices =>
      if new_prices.length < 30 then (true, none)
      else checkCorrelationLoop hist pearson new_prices current_positions

/-- Insertion-ordered key set, modelling Python dict key order. -/
def insertKey (l : List String) (k : String) : List String :=
  if l.contains k then l else l ++ [k]

/-- The sector keys of the sector_values dict built in
_check_sector_concentration, in insertion order, the candidate last. -/
def sectorKeys (current_positions : List Position) (new_sector : String) :
    List String :=
  insertKey (current_positions.foldl
    (fun acc p => insertKey acc (SECTOR_MAP p.symbol)) []) new_sector

/-- The dollar value the dict holds for one sector after the synthetic
addition of the candidate. -/
def sectorValue (current_positions : List Position) (new_sector : String)
    (new_position_value : ℚ) (sec : String) : ℚ :=
  (current_positions.filter (fun p => SECTOR_MAP p.symbol = sec)).foldl
      (fun a p => a + p.market_value) 0 +
    (if sec = new_sector then new_position_value else 0)

/-- _check_sector_concentration from src/risk/correlation_monitor.py:
reject when any sector (candidate included) would exceed 40 percent of
portfolio value; with nonpositive portfolio value every allocation reads
as 0. -/
def check_sector_concentration (new_ticker : String) (new_position_value : ℚ)
    (current_positions : List Position) (portfolio_value : ℚ) :
    Bool × Option String :=
  match (sectorKeys current_positions (SECTOR_MAP new_ticker)).find? (fun sec =>
      MAX_SECTOR_ALLOCATION <
        (if 0 < portfolio_value then
          sectorValue current_positions (SECTOR_MAP new_ticker) new_position_value
              sec / portfolio_value
        else 0)) with
  | some sec => (false, some ("Sector concentration limit: " ++ sec))
  | none => (true, none)

/-- check_new_signal from src/risk/correlation_monitor.py: approve
unconditionally with no positions; then the sector check; then, with at
least two positions, the correlation check.  The synthetic candidate
value is entry price times an assumed 10 shares. -/
def check_new_signal (hist : String → Option PriceSeries)
    (pearson : PriceSeries → PriceSeries → Option ℚ) (signal : Signal)
    (current_positions : List Position) (portfolio_value : ℚ) :
    Bool × Option String :=
  if current_positions.length = 0 then (true, none)
  else
    match check_sector_concentration signal.ticker (signal.entry_price * 10)
        current_positions portfolio_value with
    | (false, reason) => (false, reason)
    | (true, _) =>
        if MIN_POSITIONS_FOR_CORRELATION ≤ current_positions.length then
          check_correlation hist pearson signal.ticker current_positions
        else (true, none)

theorem checkCorrelationLoop_approval_none (hist : String → Option PriceSeries)
    (pearson : PriceSeries → PriceSeries → Option ℚ) (new_prices : PriceSeries) :
    ∀ l : List Position,
      (checkCorrelationLoop hist pearson new_prices l).1 = true →
      (checkCorrelationLoop hist pearson new_prices l).2 = none := by
  intro l
  induction l with
  | nil => intro; rfl
  | cons pos rest ih =>
    cases hh : hist pos.symbol with
    | none => simpa only [checkCorrelationLoop, hh] using ih
    | some ep =>
      by_cases hlen : ep.length < 30
      · simpa only [checkCorrelationLoop, hh, if_pos hlen] using ih
      · cases hcorr : calculate_correlation pearson new_prices ep with
        | none => simpa only [checkCorrelationLoop, hh, if_neg hlen, hcorr] using ih
        | some c =>
          by_cases habs : MAX_CORRELATION < |c|
          · simp only [checkCorrelationLoop, hh, if_neg hlen, hcorr, if_pos habs]
            intro h
            cases h
          · simpa only [checkCorrelationLoop, hh, if_neg hlen, hcorr, if_neg habs]
              using ih

theorem check_correlation_approval_none (hist : String → Option PriceSeries)
    (pearson : PriceSeries → PriceSeries → Option ℚ) (new_ticker : String)
    (current_positions : List Position) :
    (check_correlation hist pearson new_ticker current_positions).1 = true →
    (check_correlation hist pearson new_ticker current_positions).2 = none := by
  cases hh : hist new_ticker with
  | none => intro; simp [check_correlation, hh]
  | some ps =>
    by_cases hlen : ps.length < 30
    · intro
      simp [check_correlation, hh, hlen]
    · simpa only [check_correlation, hh, if_neg hlen] using
        checkCorrelationLoop_approval_none hist pearson ps current_positions

end CorrelationMonitor

/-- A flat daily close series over n consecutive dates. -/
def flatSeries (n : ℕ) : PriceSeries :=
  (List.range n).map (fun i : ℕ => ((i : ℤ), (100 : ℚ)))

/-- A held position in no mapped sector. -/
def posZA : Position :=
  { symbol := "ZAAA", quantity := 1, avg_entry_price := 100,
    current_price := 100, market_value := 100,
    unrealized_pnl := 0, unrealized_pnl_pct := 0 }

/-- A second held position in no mapped sector. -/
def posZB : Position :=
  { symbol := "ZBBB", quantity := 1, avg_entry_price := 100,
    current_price := 100, market_value := 100,
    unrealized_pnl := 0, unrealized_pnl_pct := 0 }

/-- A candidate signal for an unmapped ticker. -/
def newSignalZ : Signal :=
  { ticker := "ZNEW", action := "BUY", entry_price := 10,
    confidence := 1/2, strategy := "momentum" }

/-- A price-history oracle that has only 5 observations for the
candidate ticker and full history for everything else. -/
def histShortNew : String → Option PriceSeries :=
  fun t => if t = "ZNEW" then some (flatSeries 5) else some (flatSeries 30)

/-- A price-history oracle with full 30-observation history for every
ticker. -/
def histFull : String → Option PriceSeries :=
  fun _ => some (flatSeries 30)

/-- A Pearson oracle reporting a mild correlation of 0.1 for every
pair. -/
def mildPearson : PriceSeries → PriceSeries → Option ℚ :=
  fun _ _ => some (1/10)

/-- C5 counterexample: on the same two-position portfolio, a fail-open
run (the candidate has fewer than 30 price points) and a clean run (full
history everywhere, all correlations 0.1) both return exactly
(approved = true, reason = None): the fail-open approval reason is not
distinguishable from a clean approval. -/
theorem c5_fail_open_reason_equals_clean :
    CorrelationMonitor.check_new_signal histShortNew mildPearson newSignalZ
      [posZA, posZB] 10000 = (true, none) ∧
    CorrelationMonitor.check_new_signal histFull mildPearson newSignalZ
      [posZA, posZB] 10000 = (true, none) := by
  have hmapA : CorrelationMonitor.SECTOR_MAP "ZAAA" = "Unknown" := by decide
  have hmapB : CorrelationMonitor.SECTOR_MAP "ZBBB" = "Unknown" := by decide
  have hmapN : CorrelationMonitor.SECTOR_MAP "ZNEW" = "Unknown" := by decide
  have hkeys : CorrelationMonitor.sectorKeys [posZA, posZB] "Unknown" = ["Unknown"] := by
    simp [CorrelationMonitor.sectorKeys, CorrelationMonitor.insertKey,
      posZA, posZB, hmapA, hmapB]
  have hval : CorrelationMonitor.sectorValue [posZA, posZB] "Unknown" 100
      "Unknown" = 300 := by
    simp [CorrelationMonitor.sectorValue, posZA, posZB, hmapA, hmapB]
    norm_num
  have hcond : ¬ (CorrelationMonitor.MAX_SECTOR_ALLOCATION <
      (if 0 < (10000 : ℚ) then
        CorrelationMonitor.sectorValue [posZA, posZB] "Unknown" 100
          "Unknown" / 10000
      else 0)) := by
    rw [if_pos (by norm_num), hval]
    norm_num [CorrelationMonitor.MAX_SECTOR_ALLOCATION]
  have hsec : CorrelationMonitor.check_sector_concentration "ZNEW" 100
      [posZA, posZB] 10000 = (true, none) := by
    unfold CorrelationMonitor.check_sector_concentration
    rw [hmapN, hkeys]
    simp only [List.find?]
    rw [decide_eq_false hcond]
  have hlen30 : (flatSeries 30).length = 30 := by
    simp only [flatSeries]
    rw [List.length_map, List.length_range]
  have hlen5 : (flatSeries 5).length = 5 := by
    simp only [flatSeries]
    rw [List.length_map, List.length_range]
  have hcnt : CorrelationMonitor.alignedCount (flatSeries 30) (flatSeries 30) = 30 := by
    decide
  have hmild : ¬ (CorrelationMonitor.MAX_CORRELATION < |((10 : ℚ))⁻¹|) := by
    rw [abs_of_pos (by norm_num)]
    norm_num [CorrelationMonitor.MAX_CORRELATION]
  have hcc : CorrelationMonitor.calculate_correlation mildPearson (flatSeries 30)
      (flatSeries 30) = some (1/10) := by
    simp [CorrelationMonitor.calculate_correlation, hcnt, mildPearson]
  have hloopB : CorrelationMonitor.checkCorrelationLoop histFull mildPearson
      (flatSeries 30) [posZA, posZB] = (true, none) := by
    simp [CorrelationMonitor.checkCorrelationLoop, histFull, hlen30, hcc, hmild]
  have hrunA : CorrelationMonitor.check_correlation histShortNew mildPearson
      "ZNEW" [posZA, posZB] = (true, none) := by
    simp [CorrelationMonitor.check_correlation, histShortNew, hlen5]
  have hrunB : CorrelationMonitor.check_correlation histFull mildPearson
      "ZNEW" [posZA, posZB] = (true, none) := by
    simp [CorrelationMonitor.check_correlation, histFull, hlen30, hloopB]
  constructor
  · simp only [CorrelationMonitor.check_new_signal, newSignalZ]
    norm_num [hsec, CorrelationMonitor.MIN_POSITIONS_FOR_CORRELATION, hrunA]
  · simp only [CorrelationMonitor.check_new_signal, newSignalZ]
    norm_num [hsec, CorrelationMonitor.MIN_POSITIONS_FOR_CORRELATION, hrunB]

/-- C5 amended: whenever the correlation check cannot be evaluated (no
price history for the candidate, or fewer than 30 observations; errors
are the oracle returning none) the candidate is approved fail-open with
reason None, and every approval, fail-open or clean, carries reason None
at both the check_correlation and the check_new_signal level, so the two
cases are not distinguishable by the returned reason. -/
theorem c5_fail_open_amended :
    (∀ (hist : String → Option PriceSeries)
      (pearson : PriceSeries → PriceSeries → Option ℚ) (t : String)
      (positions : List Position), hist t = none →
        CorrelationMonitor.check_correlation hist pearson t positions = (true, none)) ∧
    (∀ (hist : String → Option PriceSeries)
      (pearson : PriceSeries → PriceSeries → Option ℚ) (t : String)
      (positions : List Position) (ps : PriceSeries),
        hist t = some ps → ps.length < 30 →
        CorrelationMonitor.check_correlation hist pearson t positions = (true, none)) ∧
    (∀ (hist : String → Option PriceSeries)
      (pearson : PriceSeries → PriceSeries → Option ℚ) (t : String)
      (positions : List Position),
        (CorrelationMonitor.check_correlation hist pearson t positions).1 = true →
        (CorrelationMonitor.check_correlation hist pearson t positions).2 = none) ∧
    (∀ (hist : String → Option PriceSeries)
      (pearson : PriceSeries → PriceSeries → Option ℚ) (signal : Signal)
      (positions : List Position) (pv : ℚ),
        (CorrelationMonitor.check_new_signal hist pearson signal positions pv).1 =
          true →
        (CorrelationMonitor.check_new_signal hist pearson signal positions pv).2 =
          none) := by
  refine ⟨?_, ?_, CorrelationMonitor.check_correlation_approval_none, ?_⟩
  · intro hist pearson t positions h
    simp [CorrelationMonitor.check_correlation, h]
  · intro hist pearson t positions ps h hlen
    simp [CorrelationMonitor.check_correlation, h, hlen]
  · intro hist pearson signal positions pv
    simp only [CorrelationMonitor.check_new_signal]
    split
    · intro
      rfl
    · cases hsec : CorrelationMonitor.check_sector_concentration signal.ticker
        (signal.entry_price * 10) positions pv with
      | mk b r =>
        cases b with
        | false =>
          intro h
          exact absurd h (by simp)
        | true =>
          by_cases hmin : CorrelationMonitor.MIN_POSITIONS_FOR_CORRELATION ≤
              positions.length
          · simp only [if_pos hmin]
            exact CorrelationMonitor.check_correlation_approval_none hist pearson
              signal.ticker positions
          · simp only [if_neg hmin]
            intro
            trivial

theorem c5_fail_open_amended_witness :
    histFull "ZNEW" = none ∨
      (CorrelationMonitor.check_correlation histShortNew mildPearson "ZNEW"
          [posZA] = (true, none) ∧
        histShortNew "ZNEW" = some (flatSeries 5) ∧ (flatSeries 5).length < 30) :=
  Or.inr ⟨c5_fail_open_amended.2.1 histShortNew mildPearson "ZNEW" [posZA]
      (flatSeries 5) (by simp [histShortNew])
      (by simp only [flatSeries]; rw [List.length_map, List.length_range]; norm_num),
    by simp [histShortNew],
    by simp only [flatSeries]; rw [List.length_map, List.length_range]; norm_num⟩

/-- Banker rounding of a rational to an integer, the default Decimal
context rounding (ROUND_HALF_EVEN). -/
def roundHalfEven (x : ℚ) : ℤ :=
  let n := ⌊x⌋
  let f := x - n
  if f < 1/2 then n else if 1/2 < f then n + 1 else if n % 2 = 0 then n else n + 1

/-- Decimal quantize to two decimal places under ROUND_HALF_EVEN. -/
def quantize2 (x : ℚ) : ℚ := (roundHalfEven (x * 100) : ℚ) / 100

namespace RiskManager

/-- Module-level calculate_position_size from src/core/risk_manager.py:
defensive signals with a target value are sized from the rebalancing
target, everything else goes through the dynamic Kelly sizer.  `none`
models a raise: in the defensive branch the debug f-string formats
current_value with .2f and raises on None, and the share division raises
when entry_price is zero; the dynamic branch keeps the raises of
PositionSizer.calculate_quantity. -/
def calculate_position_size (sizer : PositionSizer) (signal : Signal)
    (portfolio : Portfolio) : Option ℚ :=
  if signal.strategy = "defensive" then
    match signal.target_value with
    | some target_value =>
        match signal.current_value with
        | none => none
        | some current_value =>
            if signal.entry_price = 0 then none
            else some (quantize2 (|target_value - current_value| / signal.entry_price))
    | none => sizer.calculate_quantity signal portfolio
  else sizer.calculate_quantity signal portfolio

/-- validate_signal_risk from src/core/risk_manager.py.  The two bracket
checks use Python truthiness, so a present-but-zero stop or target leg
skips its check.  The risk/reward division cannot raise: in that branch
the stop is truthy and the earlier check guarantees stop < entry. -/
def validate_signal_risk (sizer : PositionSizer) (signal : Signal)
    (portfolio : Portfolio) : Option (Bool × String) :=
  if signal.entry_price ≤ 0 then some (false, "Invalid entry price (must be > 0)")
  else if optTruthy signal.stop_loss ∧ signal.entry_price ≤ signal.stop_loss.getD 0 then
    some (false, "Stop-loss must be below entry price")
  else if optTruthy signal.take_profit ∧ signal.take_profit.getD 0 ≤ signal.entry_price then
    some (false, "Take-profit must be above entry price")
  else
    match calculate_position_size sizer signal portfolio with
    | none => none
    | some position_size =>
        let required_capital := position_size * signal.entry_price
        if portfolio.buying_power < required_capital then
          some (false, "Insufficient buying power")
        else if optTruthy signal.stop_loss ∧ optTruthy signal.take_profit then
          let risk := signal.entry_price - signal.stop_loss.getD 0
          let reward := signal.take_profit.getD 0 - signal.entry_price
          if reward / risk < 2 then some (false, "Risk/reward ratio too low")
          else some (true, "Signal passes all risk checks")
        else some (true, "Signal passes all risk checks")

end RiskManager

/-- A momentum signal whose take-profit is present but equal to the
Decimal zero, which Python truthiness treats as absent. -/
def zeroTakeProfitSignal : Signal :=
  { ticker := "AAPL", action := "BUY", entry_price := 150,
    stop_loss := none, take_profit := some 0,
    confidence := 3/4, strategy := "momentum" }

/-- C8 counterexample: a signal with take_profit present and equal to 0,
hence take_profit ≤ entry_price, is nevertheless validated as is_valid =
true against the sample portfolio: the Decimal 0 is falsy, so the
take-profit check is skipped. -/
theorem c8_zero_take_profit_passes :
    RiskManager.validate_signal_risk defaultPositionSizer zeroTakeProfitSignal
      samplePortfolio = some (true, "Signal passes all risk checks") ∧
    zeroTakeProfitSignal.take_profit = some 0 ∧
    (0 : ℚ) ≤ zeroTakeProfitSignal.entry_price := by
  refine ⟨?_, rfl, by norm_num [zeroTakeProfitSignal]⟩
  have hfloor : (⌊(15375 : ℚ)/16/150⌋ : ℤ) = 6 := by
    rw [Int.floor_eq_iff]
    norm_num
  have habs : |(9/2 : ℚ)| = 9/2 := by norm_num
  norm_num [habs, RiskManager.validate_signal_risk, RiskManager.calculate_position_size,
    PositionSizer.calculate_quantity, PositionSizer.calculate_position_size,
    PositionSizer.position_size_pct, PositionSizer.calculate_kelly_fraction,
    PositionSizer.stop_loss_pct, PositionSizer.take_profit_pct,
    PositionSizer.effective_stop_loss, PositionSizer.effective_take_profit,
    PositionSizer.MIN_POSITION_SIZE_PCT, PositionSizer.MAX_POSITION_SIZE_PCT,
    PositionSizer.KELLY_FRACTION, PositionSizer.win_loss_ratio,
    zeroTakeProfitSignal, samplePortfolio, defaultPositionSizer, mkPositionSizer,
    truthyOrD, optTruthy, qtrunc, hfloor]

/-- C8 amended: validate_signal_risk reports is_valid = false whenever
entry_price ≤ 0, or a present-and-nonzero stop_loss is at least the
entry price, or a present-and-nonzero take_profit is at most the entry
price; a zero leg is treated as absent by Decimal truthiness. -/
theorem c8_validate_rejections_amended :
    ∀ (sizer : PositionSizer) (signal : Signal) (portfolio : Portfolio),
      (signal.entry_price ≤ 0 ∨
        (∃ sl, signal.stop_loss = some sl ∧ sl ≠ 0 ∧ signal.entry_price ≤ sl) ∨
        (∃ tp, signal.take_profit = some tp ∧ tp ≠ 0 ∧ tp ≤ signal.entry_price)) →
      ∃ reason,
        RiskManager.validate_signal_risk sizer signal portfolio = some (false, reason) := by
  intro sizer signal portfolio h
  by_cases h0 : signal.entry_price ≤ 0
  · exact ⟨_, by rw [RiskManager.validate_signal_risk, if_pos h0]⟩
  rcases h with h | h | h
  · exact absurd h h0
  · rcases h with ⟨sl, hsl, hne, hle⟩
    have hc : optTruthy signal.stop_loss = true ∧
        signal.entry_price ≤ signal.stop_loss.getD 0 := by
      simp [optTruthy, hsl, hne, hle]
    exact ⟨_, by rw [RiskManager.validate_signal_risk, if_neg h0, if_pos hc]⟩
  · rcases h with ⟨tp, htp, hne, hle⟩
    by_cases h1 : optTruthy signal.stop_loss = true ∧
        signal.entry_price ≤ signal.stop_loss.getD 0
    · exact ⟨_, by rw [RiskManager.validate_signal_risk, if_neg h0, if_pos h1]⟩
    · have hc : optTruthy signal.take_profit = true ∧
          signal.take_profit.getD 0 ≤ signal.entry_price := by
        simp [optTruthy, htp, hne, hle]
      exact ⟨_, by rw [RiskManager.validate_signal_risk, if_neg h0, if_neg h1, if_pos hc]⟩

/-- A signal whose stop-loss sits above its entry price, as in the
repository test test_validate_signal_invalid_stop_loss. -/
def badStopSignal : Signal :=
  { ticker := "AAPL", action := "BUY", entry_price := 150,
    stop_loss := some 160, confidence := 3/4, strategy := "momentum" }

theorem c8_validate_rejections_amended_witness :
    ∃ reason,
      RiskManager.validate_signal_risk defaultPositionSizer badStopSignal
        samplePortfolio = some (false, reason) :=
  c8_validate_rejections_amended defaultPositionSizer badStopSignal samplePortfolio
    (Or.inr (Or.inl ⟨160, rfl, by norm_num, by norm_num [badStopSignal]⟩))

/-- C2: the 1-share floor in calculate_quantity breaks both caps.  On the
repository test input (a 500000-per-share signal against a 10000
portfolio) the sizer returns 1 share, a 500000 dollar position exceeding
both buying_power and 15 percent of portfolio value; the repository test
itself expects 0 shares or a value within the cap. -/
theorem c2_one_share_floor_breaks_caps :
    PositionSizer.calculate_quantity defaultPositionSizer brkSignal samplePortfolio =
      some 1 ∧
    samplePortfolio.buying_power <
      (1 : ℚ) * brkSignal.entry_price ∧
    samplePortfolio.portfolio_value * PositionSizer.MAX_POSITION_SIZE_PCT <
      (1 : ℚ) * brkSignal.entry_price := by
  refine ⟨?_, by norm_num [brkSignal, samplePortfolio],
    by norm_num [brkSignal, samplePortfolio, PositionSizer.MAX_POSITION_SIZE_PCT]⟩
  have hfloor : (⌊(15375 : ℚ)/16/500000⌋ : ℤ) = 0 := by
    rw [Int.floor_eq_zero_iff]
    constructor <;> norm_num
  norm_num [PositionSizer.calculate_quantity, PositionSizer.calculate_position_size,
    PositionSizer.position_size_pct, PositionSizer.calculate_kelly_fraction,
    PositionSizer.stop_loss_pct, PositionSizer.take_profit_pct,
    PositionSizer.effective_stop_loss, PositionSizer.effective_take_profit,
    PositionSizer.MIN_POSITION_SIZE_PCT, PositionSizer.MAX_POSITION_SIZE_PCT,
    PositionSizer.KELLY_FRACTION, PositionSizer.win_loss_ratio,
    brkSignal, samplePortfolio, defaultPositionSizer, mkPositionSizer, truthyOrD,
    qtrunc, hfloor]

/-- An order submitted to the broker. -/
structure Order where
  symbol : String
  qty : ℚ
  side : String
deriving DecidableEq, Repr

/-- The environment of one orchestration cycle of daily_trading_loop:
the broker snapshot, the upstream signal producers, the configuration
flag for the sentiment strategy, the correlation monitor verdict, the
sizer state and the exit rule, all as oracles; daily_pnl is the day's
realized profit and loss, part of the world state the cycle runs in. -/
structure TradingEnv where
  market_open : Bool
  allow_premarket : Bool
  daily_pnl : ℚ
  portfolio : Portfolio
  positions : List Position
  rebalance_due : Bool
  rebalance_signals : List Signal
  momentum_signals : List Signal
  llm_enabled : Bool
  news_signals : List Signal
  monitor_check : Signal → Bool × Option String
  sizer : PositionSizer
  exit_check : Position → Bool × String

/-- The observable outcome of one cycle. -/
structure CycleResult where
  skipped : Bool
  entry_orders : List Order
  closed_symbols : List String
  analysis_ran : Bool
deriving DecidableEq, Repr

/-- daily_trading_loop from src/main.py.  Control flow follows the
source: market-hours gate, rebalance orders, momentum plus optional
news signals, risk filter, entry submission, exit checks on
non-defensive positions, then performance analysis.  A per-signal raise
inside the order loop is caught and the loop continues, modelled by
filterMap over the Option-valued sizer.  The environment carries
daily_pnl, but no step of the loop reads it: check_daily_loss_limit has
no caller in src outside the test suite. -/
def dailyTradingLoop (env : TradingEnv) : CycleResult :=
  if !env.market_open && !env.allow_premarket then
    { skipped := true, entry_orders := [], closed_symbols := [],
      analysis_ran := false }
  else
    let rebalance_orders :=
      if env.rebalance_due then
        env.rebalance_signals.filterMap (fun s =>
          (RiskManager.calculate_position_size env.sizer s env.portfolio).map
            (fun qty =>
              ({ symbol := s.ticker, qty := qty, side := s.action.toLower } : Order)))
      else []
    let all_signals :=
      env.momentum_signals ++ (if env.llm_enabled then env.news_signals else [])
    let approved :=
      (RiskManager.filter_signals_by_risk env.monitor_check all_signals
        env.positions).2
    let momentum_orders := approved.filterMap (fun s =>
      (RiskManager.calculate_position_size env.sizer s env.portfolio).map
        (fun qty => ({ symbol := s.ticker, qty := qty, side := "buy" } : Order)))
    let closed :=
      ((env.positions.filter
          (fun p => !(RiskManager.defensive_symbols.contains p.symbol))).filter
        (fun p => (env.exit_check p).1)).map (fun p => p.symbol)
    { skipped := false, entry_orders := rebalance_orders ++ momentum_orders,
      closed_symbols := closed, analysis_ran := true }

/-- The momentum signal of the sample fixture: AAPL at 150 with stop
142.50 and target 172.50. -/
def aaplSignal : Signal :=
  { ticker := "AAPL", action := "BUY", entry_price := 150,
    stop_loss := some (285/2), take_profit := some (345/2),
    confidence := 3/4, strategy := "momentum" }

/-- A cycle on a day whose realized loss sits exactly at the circuit
breaker threshold: daily_pnl = -300 against portfolio_value = 10000. -/
def breakerEnv : TradingEnv :=
  { market_open := true, allow_premarket := false, daily_pnl := -300,
    portfolio := samplePortfolio, positions := [],
    rebalance_due := false, rebalance_signals := [],
    momentum_signals := [aaplSignal], llm_enabled := false, news_signals := [],
    monitor_check := approveAll, sizer := defaultPositionSizer,
    exit_check := fun _ => (false, "") }

/-- C1: the circuit breaker is computed by check_daily_loss_limit but
daily_trading_loop never consults it.  On a cycle whose daily loss sits
exactly at the threshold (check_daily_loss_limit returns true) the loop
still submits the approved momentum entry order (7 shares of AAPL), the
analysis step still runs, and the cycle result is bitwise identical to
the same cycle with a 500 dollar profit: the loop is independent of
daily_pnl, so no halting of new entries takes place. -/
theorem dailyTradingLoop_ignores_daily_pnl (env : TradingEnv) (pnl : ℚ) :
    dailyTradingLoop { env with daily_pnl := pnl } = dailyTradingLoop env := rfl

theorem c1_entries_submitted_despite_breaker :
    RiskManager.check_daily_loss_limit breakerEnv.daily_pnl
      breakerEnv.portfolio.portfolio_value = some true ∧
    (dailyTradingLoop breakerEnv).entry_orders =
      [{ symbol := "AAPL", qty := 7, side := "buy" }] ∧
    (dailyTradingLoop breakerEnv).analysis_ran = true ∧
    dailyTradingLoop { breakerEnv with daily_pnl := 500 } =
      dailyTradingLoop breakerEnv := by
  have hfloor : (⌊(65 : ℚ)/9⌋ : ℤ) = 7 := by
    rw [Int.floor_eq_iff]
    norm_num
  have habs1 : |(15/2 : ℚ)| = 15/2 := by norm_num
  have habs2 : |(45/2 : ℚ)| = 45/2 := by norm_num
  have hsize : RiskManager.calculate_position_size defaultPositionSizer aaplSignal
      samplePortfolio = some 7 := by
    norm_num [habs1, habs2, RiskManager.calculate_position_size,
      PositionSizer.calculate_quantity, PositionSizer.calculate_position_size,
      PositionSizer.position_size_pct, PositionSizer.calculate_kelly_fraction,
      PositionSizer.stop_loss_pct, PositionSizer.take_profit_pct,
      PositionSizer.effective_stop_loss, PositionSizer.effective_take_profit,
      PositionSizer.MIN_POSITION_SIZE_PCT, PositionSizer.MAX_POSITION_SIZE_PCT,
      PositionSizer.KELLY_FRACTION, PositionSizer.win_loss_ratio,
      aaplSignal, samplePortfolio, defaultPositionSizer, mkPositionSizer,
      truthyOrD, qtrunc, hfloor]
  have happroved : (RiskManager.filter_signals_by_risk approveAll [aaplSignal]
      []).2 = [aaplSignal] := by
    simp [RiskManager.filter_signals_by_risk, RiskManager.momentum_positions,
      RiskManager.defensive_symbols, RiskManager.MAX_POSITIONS,
      RiskManager.sortByConfidenceDesc, RiskManager.insertDesc,
      RiskManager.selectApproved, approveAll]
  refine ⟨?_, ?_, ?_, dailyTradingLoop_ignores_daily_pnl breakerEnv 500⟩
  · norm_num [RiskManager.check_daily_loss_limit, RiskManager.DAILY_LOSS_LIMIT_PCT,
      breakerEnv, samplePortfolio]
  · simp [dailyTradingLoop, breakerEnv, happroved, hsize]
    rfl
  · simp [dailyTradingLoop, breakerEnv]
